import Mathlib

/-
Verification of the Road_Hazard_mapping backend core: the speed-recommendation
engine and route-safety analysis (src/backend/routes/speed_routes.py) and the
GPS / route motion simulators (src/backend/utils/gps_simulator.py).

Modelling conventions:
  * Python floats are modelled as real numbers (ℝ); Python ints as ℤ.
  * `math.atan2 y x` is the argument of the complex number x + y·i, so it is
    modelled with `Complex.arg`.
  * Randomness (`random.random`, `random.uniform`) is modelled by passing each
    drawn value explicitly as an argument.
  * Fallible code is modelled with `Option` / `Except`: a Python exception or
    an HTTP error response becomes `none` / `.error`.
  * Python `int(x)` truncates toward zero; `round(x, n)` rounds half to even;
    `a % b` on floats is a - b·⌊a/b⌋.  Each gets its own primitive below.
-/

namespace RoadHazard

noncomputable section

/-- Python float `%` (sign follows the divisor): `a % b = a - b * floor (a / b)`. -/
def pyMod (a b : ℝ) : ℝ := a - b * ⌊a / b⌋

/-- Python `int(x)` on a float: truncation toward zero. -/
def pyInt (x : ℝ) : ℤ := if 0 ≤ x then ⌊x⌋ else ⌈x⌉

/-- Round a real to the nearest integer, ties to the even integer
(the rounding used by Python's built-in `round`). -/
def halfEven (y : ℝ) : ℤ :=
  if Int.fract y < 1 / 2 then ⌊y⌋
  else if 1 / 2 < Int.fract y then ⌊y⌋ + 1
  else if Even ⌊y⌋ then ⌊y⌋ else ⌊y⌋ + 1

/-- Python `round(x, n)` for floats: half-even rounding at `n` decimal digits. -/
def pyRound (x : ℝ) (n : ℕ) : ℝ := (halfEven (x * 10 ^ n) : ℝ) / 10 ^ n

/-- Python `math.radians`. -/
def radians (x : ℝ) : ℝ := x * Real.pi / 180

/-- Python `math.atan2 y x`: the angle of the point (x, y), i.e. the argument
of the complex number x + y·i. -/
def atan2 (y x : ℝ) : ℝ := Complex.arg ⟨x, y⟩

/-- Model of `HazardType` enum from src/backend/models/hazard.py. -/
inductive HazardType
  | pothole
  | crack
  | debris
  | construction
  | flooding
deriving DecidableEq

/-- Model of `SeverityLevel` enum from src/backend/models/hazard.py. -/
inductive SeverityLevel
  | low
  | medium
  | high
deriving DecidableEq

/-- The columns of the `Hazard` model (src/backend/models/hazard.py) that the
speed-recommendation code reads.  The remaining columns (location geometry,
timestamps, confidence, image path, verified flag, area, weather) are never
read by the engine and are omitted. -/
structure Hazard where
  id : ℤ
  latitude : ℝ
  longitude : ℝ
  hazard_type : HazardType
  severity_level : SeverityLevel
  speed_limit : ℤ
  recommended_speed : ℤ
  road_name : String

namespace SpeedRecommendationEngine

/-- Model of `SPEED_FACTORS` (speed_routes.py lines 18-22): severity → retained fraction. -/
def SPEED_FACTORS : SeverityLevel → ℝ
  | .high => 0.5
  | .medium => 0.75
  | .low => 0.90

/-- Model of `DISTANCE_FACTORS` (speed_routes.py lines 25-31).  The Python dict is
iterated via `sorted(...)`, i.e. ascending by threshold; its keys are already
in ascending order, so the sorted item list is the literal list below. -/
def DISTANCE_FACTORS : List (ℝ × ℝ) :=
  [(0.1, 1.0), (0.2, 0.8), (0.5, 0.5), (1.0, 0.2), (2.0, 0.1)]

/-- Model of `calculate_distance` (speed_routes.py lines 33-48): haversine distance in
kilometres with Earth radius 6371 km. -/
def calculate_distance (lat1 lng1 lat2 lng2 : ℝ) : ℝ :=
  let R : ℝ := 6371
  let lat1_rad := radians lat1
  let lat2_rad := radians lat2
  let delta_lat := radians (lat2 - lat1)
  let delta_lng := radians (lng2 - lng1)
  let a := Real.sin (delta_lat / 2) * Real.sin (delta_lat / 2) +
      Real.cos lat1_rad * Real.cos lat2_rad *
      Real.sin (delta_lng / 2) * Real.sin (delta_lng / 2)
  let c := 2 * atan2 (Real.sqrt a) (Real.sqrt (1 - a))
  R * c

/-- The loop body of `get_distance_factor`: walk the (ascending) threshold
list and return the factor of the first threshold that `distance_km` does not
exceed. -/
def lookupFactor : List (ℝ × ℝ) → ℝ → ℝ
  | [], _ => 0.0
  | (threshold, factor) :: rest, distance_km =>
      if distance_km ≤ threshold then factor else lookupFactor rest distance_km

/-- Model of `get_distance_factor` (speed_routes.py lines 50-56). -/
def get_distance_factor (distance_km : ℝ) : ℝ :=
  lookupFactor DISTANCE_FACTORS distance_km

/-- The `for hazard in hazards` loop of `calculate_recommended_speed`
(speed_routes.py lines 67-80), accumulating `total_impact`. -/
def impactLoop (lat lng : ℝ) : List Hazard → ℝ → ℝ
  | [], total_impact => total_impact
  | hazard :: rest, total_impact =>
      let distance := calculate_distance lat lng hazard.latitude hazard.longitude
      let distance_factor := get_distance_factor distance
      let severity_factor := SPEED_FACTORS hazard.severity_level
      impactLoop lat lng rest
        (if 0 < distance_factor then
          total_impact + (1 - severity_factor) * distance_factor
        else total_impact)

/-- Model of `calculate_recommended_speed` (speed_routes.py lines 58-89). -/
def calculate_recommended_speed (current_location : ℝ × ℝ) (hazards : List Hazard)
    (base_speed_limit : ℤ) : ℤ :=
  let lat := current_location.1
  let lng := current_location.2
  let total_impact := impactLoop lat lng hazards 0.0
  let total_impact := min total_impact 0.8
  let recommended_speed := pyInt ((base_speed_limit : ℝ) * (1 - total_impact))
  max recommended_speed 20

/-- The sum of the individual impacts `(1 - S(severity)) * D(distance)` of a
hazard list, with no guard: the declarative form of what `impactLoop`
accumulates (a hazard whose distance factor is 0 contributes 0 either way). -/
def sumImpacts (lat lng : ℝ) (hazards : List Hazard) : ℝ :=
  (hazards.map (fun hazard =>
    (1 - SPEED_FACTORS hazard.severity_level) *
      get_distance_factor (calculate_distance lat lng hazard.latitude hazard.longitude))).sum

/-- Modelled from the spec (§4.2): the distance factor is the factor of the
smallest threshold ≥ distanceKm over the ascending thresholds
0.1→1.0, 0.2→0.8, 0.5→0.5, 1.0→0.2, 2.0→0.1, ties taking the smaller
threshold, and 0 beyond the largest threshold (2 km). -/
def specDistanceFactor (distance_km : ℝ) : ℝ :=
  if distance_km ≤ 0.1 then 1.0
  else if distance_km ≤ 0.2 then 0.8
  else if distance_km ≤ 0.5 then 0.5
  else if distance_km ≤ 1.0 then 0.2
  else if distance_km ≤ 2.0 then 0.1
  else 0

end SpeedRecommendationEngine

/-- A waypoint of a `/speed-recommendations` request: a dict with `lat`,
`lng` and an optional `speed_limit` (the code reads it with
`waypoint.get('speed_limit', 50)`). -/
structure Waypoint where
  lat : ℝ
  lng : ℝ
  speed_limit : Option ℤ

/-- One entry of the `hazards` list of a per-waypoint recommendation
(speed_routes.py lines 134-140).  The wire key of `hazard_type` is `'type'`. -/
structure HazardDetail where
  id : ℤ
  hazard_type : HazardType
  severity : SeverityLevel
  distance_km : ℝ
  road_name : String

/-- One per-waypoint recommendation (speed_routes.py lines 142-150). -/
structure SpeedRecommendation where
  waypoint_index : ℕ
  location : ℝ × ℝ
  speed_limit : ℤ
  recommended_speed : ℤ
  speed_reduction : ℤ
  hazards_count : ℕ
  hazards : List HazardDetail

/-- The bounding-box hazard query (speed_routes.py lines 113-120): the
`Hazard.query.filter(and_(...))` over the stored hazards, modelled as a filter
over the repository list, preserving its order. -/
def bboxQuery (lat lng radius_deg : ℝ) : List Hazard → List Hazard
  | [] => []
  | hazard :: rest =>
      if lat - radius_deg ≤ hazard.latitude ∧ hazard.latitude ≤ lat + radius_deg ∧
          lng - radius_deg ≤ hazard.longitude ∧ hazard.longitude ≤ lng + radius_deg then
        hazard :: bboxQuery lat lng radius_deg rest
      else bboxQuery lat lng radius_deg rest

/-- The detail built for one hazard within the search radius
(speed_routes.py lines 134-140): `distance_km` is `round(distance, 2)`. -/
def mkDetail (lat lng : ℝ) (hazard : Hazard) : HazardDetail :=
  { id := hazard.id
    hazard_type := hazard.hazard_type
    severity := hazard.severity_level
    distance_km :=
      pyRound (SpeedRecommendationEngine.calculate_distance lat lng hazard.latitude hazard.longitude) 2
    road_name := hazard.road_name }

/-- The `for hazard in hazards` loop building `hazard_details`
(speed_routes.py lines 128-140): keep, in query order, the hazards whose
(unrounded) distance is within the search radius. -/
def detailLoop (lat lng search_radius_km : ℝ) : List Hazard → List HazardDetail
  | [] => []
  | hazard :: rest =>
      let distance := SpeedRecommendationEngine.calculate_distance lat lng hazard.latitude hazard.longitude
      if distance ≤ search_radius_km then
        mkDetail lat lng hazard :: detailLoop lat lng search_radius_km rest
      else detailLoop lat lng search_radius_km rest

/-- The body of the per-waypoint iteration of `get_speed_recommendations`
(speed_routes.py lines 106-150), for waypoint number `i`. -/
def recommendationFor (db : List Hazard) (search_radius_km : ℝ) (i : ℕ) (w : Waypoint) :
    SpeedRecommendation :=
  let lat := w.lat
  let lng := w.lng
  let speed_limit := w.speed_limit.getD 50
  let radius_deg := search_radius_km / 111.0
  let hazards := bboxQuery lat lng radius_deg db
  let recommended_speed :=
    SpeedRecommendationEngine.calculate_recommended_speed (lat, lng) hazards speed_limit
  let hazard_details := detailLoop lat lng search_radius_km hazards
  { waypoint_index := i
    location := (lat, lng)
    speed_limit := speed_limit
    recommended_speed := recommended_speed
    speed_reduction := speed_limit - recommended_speed
    hazards_count := hazard_details.length
    hazards := hazard_details }

/-- The loop `for i, waypoint in enumerate(waypoints)` (speed_routes.py line 106). -/
def recommendationLoop (db : List Hazard) (search_radius_km : ℝ) :
    ℕ → List Waypoint → List SpeedRecommendation
  | _, [] => []
  | i, w :: rest =>
      recommendationFor db search_radius_km i w ::
        recommendationLoop db search_radius_km (i + 1) rest

/-- Model of `get_speed_recommendations` (speed_routes.py lines 91-159): an empty
waypoint list is answered with a 400 error response. -/
def get_speed_recommendations (waypoints : List Waypoint) (db : List Hazard)
    (search_radius_km : ℝ) : Except String (List SpeedRecommendation) :=
  match waypoints with
  | [] => .error "No waypoints provided"
  | _ => .ok (recommendationLoop db search_radius_km 0 waypoints)

/-- Route safety classification of `analyze_route_safety`. -/
inductive SafetyLevel
  | safe
  | low_risk
  | moderate_risk
  | high_risk
deriving DecidableEq

/-- The shape of the `route_analysis` object that lines 264-276 of
speed_routes.py would build (histograms modelled as count functions).  It is
the declared result type of the analysis, but the endpoint never actually
reaches the code that builds it (see `analyze_route_safety` below). -/
structure RouteAnalysis where
  total_waypoints : ℕ
  total_hazards : ℕ
  average_speed_reduction : ℝ
  safety_level : SafetyLevel
  hazard_distribution : HazardType → ℕ
  severity_distribution : SeverityLevel → ℕ
  most_dangerous_segment : Option SpeedRecommendation
  estimated_extra_time_minutes : ℝ

/-- Model of `analyze_route_safety` (speed_routes.py lines 218-279).  An empty
waypoint list is answered with a 400 error response (line 226).  Otherwise the
nested call `get_speed_recommendations()` (line 229) runs on the same request
data and, the waypoint list being non-empty, takes its success path, which
returns a bare Flask `Response` (line 152), not a `(response, status)` tuple;
line 230 then evaluates `recommendations_response[0]`, and a `Response` is not
subscriptable, so this raises `TypeError`, which the enclosing
`except Exception` turns into a 500 error response (line 279).  Had the nested
call returned an error tuple instead, the subscript would succeed but the
payload would lack the `recommendations` key, giving the 500 error of
line 233.  Either way the report-building code of lines 235-276 is
unreachable: the endpoint never produces a `route_analysis` report. -/
def analyze_route_safety (waypoints : List Waypoint) (db : List Hazard)
    (search_radius_km : ℝ) : Except String RouteAnalysis :=
  match waypoints with
  | [] => .error "No waypoints provided"
  | _ =>
    match get_speed_recommendations waypoints db search_radius_km with
    | .error _ => .error "Failed to get recommendations"
    | .ok _ => .error "TypeError: Response object is not subscriptable"

/-- Mutable state of a `GPSSimulator` (gps_simulator.py lines 10-15).
`heading` and `accuracy` are initialised from uniform draws in `__init__`;
the draws are passed explicitly to `GPSSimulator.init`. -/
structure GPSState where
  current_lat : ℝ
  current_lng : ℝ
  speed_kmh : ℝ
  heading : ℝ
  accuracy : ℝ

namespace GPSSimulator

/-- Model of `GPSSimulator.__init__` (gps_simulator.py lines 10-15): `heading0` is the
`random.uniform(0, 360)` draw and `accuracy0` the `random.uniform(3, 8)` draw.
Note that `speed_kmh` is stored unclamped. -/
def init (start_lat start_lng speed_kmh heading0 accuracy0 : ℝ) : GPSState :=
  { current_lat := start_lat
    current_lng := start_lng
    speed_kmh := speed_kmh
    heading := heading0
    accuracy := accuracy0 }

/-- The random draws consumed by one `GPSSimulator.move` call:
the `random.random()` rolls of `update_heading` and `update_speed`, the two
`random.uniform` perturbation deltas, and the fresh accuracy sample. -/
structure MoveRand where
  heading_roll : ℝ
  heading_delta : ℝ
  speed_roll : ℝ
  speed_delta : ℝ
  new_accuracy : ℝ

/-- Model of `calculate_new_position` (gps_simulator.py lines 17-35). -/
def calculate_new_position (g : GPSState) (time_delta_seconds : ℝ) : ℝ × ℝ :=
  let speed_ms := g.speed_kmh * 1000 / 3600
  let distance_m := speed_ms * time_delta_seconds
  let distance_deg := distance_m / 111320
  let lat_change := distance_deg * Real.cos (radians g.heading)
  let lng_change := distance_deg * Real.sin (radians g.heading)
  (g.current_lat + lat_change, g.current_lng + lng_change)

/-- Model of `update_heading` (gps_simulator.py lines 47-51): with probability 0.1
(`roll < 0.1`) perturb the heading and wrap it modulo 360. -/
def update_heading (g : GPSState) (roll delta : ℝ) : GPSState :=
  if roll < 0.1 then { g with heading := pyMod (g.heading + delta) 360 } else g

/-- Model of `update_speed` (gps_simulator.py lines 53-57): with probability 0.05
(`roll < 0.05`) perturb the speed, clamped into [20, 80]. -/
def update_speed (g : GPSState) (roll delta : ℝ) : GPSState :=
  if roll < 0.05 then { g with speed_kmh := max 20 (min 80 (g.speed_kmh + delta)) } else g

/-- Model of `GPSSimulator.move` (gps_simulator.py lines 91-103). -/
def move (g : GPSState) (time_delta_seconds : ℝ) (r : MoveRand) : GPSState :=
  let p := calculate_new_position g time_delta_seconds
  let g1 := { g with current_lat := p.1, current_lng := p.2 }
  let g2 := update_heading g1 r.heading_roll r.heading_delta
  let g3 := update_speed g2 r.speed_roll r.speed_delta
  { g3 with accuracy := r.new_accuracy }

/-- A finite sequence of `move` calls, each with its time delta and draws. -/
def run (g : GPSState) (steps : List (ℝ × MoveRand)) : GPSState :=
  steps.foldl (fun st p => move st p.1 p.2) g

/-- The noise draws consumed by one `add_noise` call: the code draws the two
offsets uniformly from [-accuracy/111320, accuracy/111320]; the drawn offsets
are passed directly. -/
structure NoiseRand where
  lat_noise : ℝ
  lng_noise : ℝ

/-- Model of `add_noise` (gps_simulator.py lines 37-45). -/
def add_noise (g : GPSState) (n : NoiseRand) : ℝ × ℝ :=
  (g.current_lat + n.lat_noise, g.current_lng + n.lng_noise)

/-- The numeric fields of the dict returned by `get_current_position`
(gps_simulator.py lines 59-73).  The wall-clock timestamp, the freshly drawn
altitude and the reverse-geocoded road name are presentational and omitted. -/
structure GPSReading where
  latitude : ℝ
  longitude : ℝ
  speed : ℝ
  heading : ℝ
  accuracy : ℝ

/-- Model of `get_current_position` (gps_simulator.py lines 59-73): noisy position and
rounded state fields. -/
def get_current_position (g : GPSState) (n : NoiseRand) : GPSReading :=
  let p := add_noise g n
  { latitude := pyRound p.1 6
    longitude := pyRound p.2 6
    speed := pyRound g.speed_kmh 1
    heading := pyRound g.heading 1
    accuracy := pyRound g.accuracy 1 }

end GPSSimulator

/-- A waypoint of a simulated route: a dict with `lat` and `lng`. -/
structure LatLng where
  lat : ℝ
  lng : ℝ

/-- Mutable state of a `RouteSimulator` (gps_simulator.py lines 108-117). -/
structure RouteState where
  waypoints : List LatLng
  current_waypoint_index : ℕ
  speed_kmh : ℝ
  progress : ℝ
  gps_simulator : GPSState

namespace RouteSimulator

/-- Model of `RouteSimulator.calculate_distance` (gps_simulator.py lines 166-181): the
source duplicates the haversine of `SpeedRecommendationEngine.calculate_distance`
verbatim, so it is modelled by the same definition. -/
def calculate_distance (lat1 lng1 lat2 lng2 : ℝ) : ℝ :=
  SpeedRecommendationEngine.calculate_distance lat1 lng1 lat2 lng2

/-- Model of `RouteSimulator.__init__` (gps_simulator.py lines 108-117): reads
`waypoints[0]`, which raises `IndexError` on an empty list (`none`).
`heading0` and `accuracy0` are the embedded `GPSSimulator.__init__` draws. -/
def init (waypoints : List LatLng) (speed_kmh heading0 accuracy0 : ℝ) : Option RouteState :=
  match waypoints with
  | [] => none
  | w0 :: _ =>
      some
        { waypoints := waypoints
          current_waypoint_index := 0
          speed_kmh := speed_kmh
          progress := 0.0
          gps_simulator := GPSSimulator.init w0.lat w0.lng speed_kmh heading0 accuracy0 }

/-- Whether the simulator has reached the end of the route: the Python guard
`self.current_waypoint_index >= len(self.waypoints) - 1`. -/
def atEnd (s : RouteState) : Prop :=
  s.waypoints.length - 1 ≤ s.current_waypoint_index

instance (s : RouteState) : Decidable (atEnd s) := by
  unfold atEnd
  infer_instance

/-- The total haversine length of the current segment (gps_simulator.py
lines 148-155), out-of-range indices reading a default as Python would raise. -/
def segment_distance (s : RouteState) : ℝ :=
  let current := s.waypoints.getD s.current_waypoint_index ⟨0, 0⟩
  let next_wp := s.waypoints.getD (s.current_waypoint_index + 1) ⟨0, 0⟩
  calculate_distance current.lat current.lng next_wp.lat next_wp.lng

/-- The per-tick progress increment `distance_m / (total_distance * 1000)`
(gps_simulator.py line 158). -/
def progress_increment (s : RouteState) (time_delta_seconds : ℝ) : ℝ :=
  let speed_ms := s.speed_kmh * 1000 / 3600
  let distance_m := speed_ms * time_delta_seconds
  distance_m / (segment_distance s * 1000)

/-- Model of `RouteSimulator.move` (gps_simulator.py lines 139-164).  On a non-final
segment of zero haversine length the division raises `ZeroDivisionError`
(`none`). -/
def move (s : RouteState) (time_delta_seconds : ℝ) : Option RouteState :=
  if atEnd s then some s
  else if segment_distance s * 1000 = 0 then none
  else
    let progress := s.progress + progress_increment s time_delta_seconds
    if 1.0 ≤ progress then
      some { s with current_waypoint_index := s.current_waypoint_index + 1, progress := 0.0 }
    else some { s with progress := progress }

/-- A finite sequence of `move` calls, aborting at the first exception. -/
def runMoves (s : Option RouteState) (dts : List ℝ) : Option RouteState :=
  dts.foldl (fun acc dt => acc.bind (fun st => move st dt)) s

/-- Model of `RouteSimulator.get_current_position` (gps_simulator.py lines 119-137):
at the end of the route it delegates to the embedded GPS simulator unchanged;
otherwise it interpolates and writes the interpolated point into the embedded
simulator's fields before reading it.  Returns the reading and the post state. -/
def get_current_position (s : RouteState) (n : GPSSimulator.NoiseRand) :
    GPSSimulator.GPSReading × RouteState :=
  if atEnd s then (GPSSimulator.get_current_position s.gps_simulator n, s)
  else
    let current := s.waypoints.getD s.current_waypoint_index ⟨0, 0⟩
    let next_wp := s.waypoints.getD (s.current_waypoint_index + 1) ⟨0, 0⟩
    let lat := current.lat + (next_wp.lat - current.lat) * s.progress
    let lng := current.lng + (next_wp.lng - current.lng) * s.progress
    let s' := { s with gps_simulator :=
      { s.gps_simulator with current_lat := lat, current_lng := lng } }
    (GPSSimulator.get_current_position s'.gps_simulator n, s')

end RouteSimulator

/-- Concrete high-severity hazard located at the origin, for witnesses. -/
def cHazardHigh : Hazard :=
  { id := 1, latitude := 0, longitude := 0, hazard_type := .pothole,
    severity_level := .high, speed_limit := 60, recommended_speed := 40,
    road_name := "University Road" }

/-- A hazard ≈ 111 km from the origin (at 1° latitude), listed FIRST in the
repository, for the hazard-ordering counterexample. -/
def cHazFar : Hazard :=
  { id := 3, latitude := 1, longitude := 0, hazard_type := .crack,
    severity_level := .low, speed_limit := 60, recommended_speed := 50,
    road_name := "GT Road" }

/-- A hazard at the origin itself (distance 0), listed SECOND in the
repository, for the hazard-ordering counterexample. -/
def cHazNear : Hazard :=
  { id := 4, latitude := 0, longitude := 0, hazard_type := .debris,
    severity_level := .low, speed_limit := 60, recommended_speed := 50,
    road_name := "Ring Road" }

/-- A GPS simulator constructed with an initial speed of 100 km/h (the
constructor accepts any `speed_kmh` without clamping). -/
def cGpsFast : GPSState := GPSSimulator.init 0 0 100 0 5

/-- A draw record whose rolls (0.5) trigger neither the heading nor the speed
perturbation. -/
def cMoveRand : GPSSimulator.MoveRand :=
  { heading_roll := 0.5, heading_delta := 0, speed_roll := 0.5, speed_delta := 0,
    new_accuracy := 5 }

/-- A two-waypoint route for the route-simulator witnesses: from (0°, 0°) to
(1°, 0°), a segment of ≈ 111 km. -/
def cRouteWps : List LatLng := [⟨0, 0⟩, ⟨1, 0⟩]

/-- The state produced by `RouteSimulator.init cRouteWps 50 0 5`. -/
def cRouteStart : RouteState :=
  { waypoints := cRouteWps
    current_waypoint_index := 0
    speed_kmh := 50
    progress := 0.0
    gps_simulator := GPSSimulator.init 0 0 50 0 5 }

/-- A one-waypoint route simulator state: its single waypoint is final. -/
def cRouteEnd : RouteState :=
  { waypoints := [⟨0, 0⟩]
    current_waypoint_index := 0
    speed_kmh := 50
    progress := 0.0
    gps_simulator := GPSSimulator.init 0 0 50 0 5 }

/- ------------------------------------------------------------------ -/
/- Theorems                                                           -/
/- ------------------------------------------------------------------ -/

open SpeedRecommendationEngine

theorem speed_factor_le_one (s : SeverityLevel) : SPEED_FACTORS s ≤ 1 := by
  cases s <;> norm_num [SPEED_FACTORS]

theorem speed_factor_nonneg (s : SeverityLevel) : 0 ≤ SPEED_FACTORS s := by
  cases s <;> norm_num [SPEED_FACTORS]

theorem get_distance_factor_nonneg (d : ℝ) : 0 ≤ get_distance_factor d := by
  simp only [get_distance_factor, DISTANCE_FACTORS, lookupFactor]
  split_ifs <;> norm_num

theorem impactLoop_ge (lat lng : ℝ) (hazards : List Hazard) (acc : ℝ) :
    acc ≤ impactLoop lat lng hazards acc := by
  induction hazards generalizing acc with
  | nil => simp [impactLoop]
  | cons h t ih =>
      simp only [impactLoop]
      refine le_trans ?_ (ih _)
      split_ifs with hdf
      · have h1 : 0 ≤ 1 - SPEED_FACTORS h.severity_level :=
          sub_nonneg.mpr (speed_factor_le_one _)
        nlinarith
      · exact le_rfl

theorem impactLoop_eq (lat lng : ℝ) (hazards : List Hazard) (acc : ℝ) :
    impactLoop lat lng hazards acc = acc + sumImpacts lat lng hazards := by
  induction hazards generalizing acc with
  | nil => simp [impactLoop, sumImpacts]
  | cons h t ih =>
      simp only [impactLoop, sumImpacts, List.map_cons, List.sum_cons]
      rw [ih]
      split_ifs with hdf
      · simp only [sumImpacts]
        ring
      · have h0 : get_distance_factor
            (calculate_distance lat lng h.latitude h.longitude) = 0 :=
          le_antisymm (not_lt.mp hdf) (get_distance_factor_nonneg _)
        simp only [sumImpacts, h0, mul_zero, zero_add]

theorem pyInt_of_nonneg {x : ℝ} (hx : 0 ≤ x) : pyInt x = ⌊x⌋ := if_pos hx

theorem pyInt_intCast (n : ℤ) : pyInt (n : ℝ) = n := by
  unfold pyInt
  split_ifs <;> simp

theorem max_pyInt_eq_max_floor (x : ℝ) : max (pyInt x) 20 = max ⌊x⌋ 20 := by
  unfold pyInt
  split_ifs with h
  · rfl
  · push_neg at h
    have hc : (⌈x⌉ : ℤ) ≤ 0 := Int.ceil_le.mpr (by exact_mod_cast h.le)
    have hf : (⌊x⌋ : ℤ) ≤ 0 := le_trans (Int.floor_le_ceil x) hc
    rw [max_eq_right (by omega), max_eq_right (by omega)]

theorem calculate_distance_self (x y : ℝ) : calculate_distance x y x y = 0 := by
  have h1 : (⟨(1 : ℝ), (0 : ℝ)⟩ : ℂ) = 1 := Complex.ext (by simp) (by simp)
  simp [calculate_distance, radians, atan2, sub_self, Real.sin_zero, h1,
    Complex.arg_one]

theorem get_distance_factor_zero : get_distance_factor 0 = 1 := by
  simp only [get_distance_factor, DISTANCE_FACTORS, lookupFactor]
  norm_num

/-- C1: for every speed limit ≥ 20 and every finite hazard list (and any query
point), `calculate_recommended_speed` returns an integer in [20, speedLimit]. -/
theorem calculate_recommended_speed_bounds (loc : ℝ × ℝ) (hazards : List Hazard)
    (L : ℤ) (hL : 20 ≤ L) :
    20 ≤ calculate_recommended_speed loc hazards L ∧
      calculate_recommended_speed loc hazards L ≤ L := by
  simp only [calculate_recommended_speed]
  rw [show (0.0 : ℝ) = 0 by norm_num]
  set total := impactLoop loc.1 loc.2 hazards 0 with htotal
  have h0 : (0 : ℝ) ≤ total := impactLoop_ge loc.1 loc.2 hazards 0
  have hT0 : (0 : ℝ) ≤ min total 0.8 := le_min h0 (by norm_num)
  have hT8 : min total 0.8 ≤ 0.8 := min_le_right _ _
  have hL0 : (0 : ℝ) ≤ (L : ℝ) := by exact_mod_cast (by omega : (0 : ℤ) ≤ L)
  have hx0 : (0 : ℝ) ≤ (L : ℝ) * (1 - min total 0.8) := by nlinarith
  rw [pyInt_of_nonneg hx0]
  constructor
  · exact le_max_right _ _
  · refine max_le ?_ hL
    have hxL : (L : ℝ) * (1 - min total 0.8) ≤ (L : ℝ) := by nlinarith
    calc ⌊(L : ℝ) * (1 - min total 0.8)⌋ ≤ ⌊(L : ℝ)⌋ := Int.floor_le_floor hxL
      _ = L := Int.floor_intCast L

/-- C1 witness. -/
theorem calculate_recommended_speed_bounds_witness :
    (20 : ℤ) ≤ 50 ∧
      (20 ≤ calculate_recommended_speed ((0 : ℝ), (0 : ℝ)) [] 50 ∧
        calculate_recommended_speed ((0 : ℝ), (0 : ℝ)) [] 50 ≤ 50) :=
  ⟨by norm_num, calculate_recommended_speed_bounds ((0 : ℝ), (0 : ℝ)) [] 50 (by norm_num)⟩

/-- C3: whenever the individual impacts of the hazards sum to more than 0.8,
the total impact is clamped to exactly 0.8, so the result is
floor(speedLimit · 0.2) floored at the safety minimum 20. -/
theorem calculate_recommended_speed_clamped (loc : ℝ × ℝ) (hazards : List Hazard)
    (L : ℤ) (h : 0.8 < sumImpacts loc.1 loc.2 hazards) :
    calculate_recommended_speed loc hazards L = max ⌊(L : ℝ) * 0.2⌋ 20 := by
  simp only [calculate_recommended_speed]
  rw [impactLoop_eq]
  have hmin : min ((0.0 : ℝ) + sumImpacts loc.1 loc.2 hazards) 0.8 = 0.8 := by
    rw [min_eq_right]
    linarith
  rw [hmin]
  rw [show (1 : ℝ) - 0.8 = 0.2 by norm_num]
  exact max_pyInt_eq_max_floor _

/-- C3 witness: two high-severity hazards at the query point itself have
impacts 0.5 + 0.5 = 1 > 0.8. -/
theorem calculate_recommended_speed_clamped_witness :
    (0.8 : ℝ) < sumImpacts 0 0 [cHazardHigh, cHazardHigh] ∧
      calculate_recommended_speed ((0 : ℝ), (0 : ℝ)) [cHazardHigh, cHazardHigh] 50 =
        max ⌊(50 : ℝ) * 0.2⌋ 20 := by
  have hs : (0.8 : ℝ) < sumImpacts 0 0 [cHazardHigh, cHazardHigh] := by
    simp [sumImpacts, cHazardHigh, calculate_distance_self, get_distance_factor_zero,
      SPEED_FACTORS]
    norm_num
  exact ⟨hs, calculate_recommended_speed_clamped ((0 : ℝ), (0 : ℝ)) _ 50 hs⟩

theorem crs_empty_list (loc : ℝ × ℝ) (L : ℤ) :
    calculate_recommended_speed loc [] L = max L 20 := by
  simp only [calculate_recommended_speed, impactLoop]
  have hmin : min (0.0 : ℝ) 0.8 = 0 := by norm_num
  rw [hmin, sub_zero, mul_one, pyInt_intCast]

/-- C4: on the empty hazard list the engine returns exactly max(speedLimit, 20),
for every query point and every integer speed limit, with no failure. -/
theorem calculate_recommended_speed_nil (loc : ℝ × ℝ) (L : ℤ) :
    calculate_recommended_speed loc [] L = max L 20 :=
  crs_empty_list loc L

/-- C5: for every non-negative distance, the loop of `get_distance_factor`
computes the spec's piecewise step function (smallest threshold ≥ d over the
ascending thresholds, ties to the smaller threshold, 0 beyond 2 km). -/
theorem get_distance_factor_eq_spec (d : ℝ) (_hd : 0 ≤ d) :
    get_distance_factor d = specDistanceFactor d := by
  simp only [get_distance_factor, DISTANCE_FACTORS, lookupFactor, specDistanceFactor]
  split_ifs <;> norm_num

/-- C5 witness. -/
theorem get_distance_factor_eq_spec_witness :
    (0 : ℝ) ≤ 0.3 ∧ get_distance_factor 0.3 = specDistanceFactor 0.3 :=
  ⟨by norm_num, get_distance_factor_eq_spec 0.3 (by norm_num)⟩

theorem gps_move_speed_mem (g : GPSState) (dt : ℝ) (r : GPSSimulator.MoveRand)
    (h1 : 20 ≤ g.speed_kmh) (h2 : g.speed_kmh ≤ 80) :
    20 ≤ (GPSSimulator.move g dt r).speed_kmh ∧
      (GPSSimulator.move g dt r).speed_kmh ≤ 80 := by
  simp only [GPSSimulator.move, GPSSimulator.update_speed, GPSSimulator.update_heading,
    apply_ite (f := GPSState.speed_kmh)]
  split_ifs <;>
    refine ⟨?_, ?_⟩ <;>
      first
        | exact h1
        | exact h2
        | exact le_max_left _ _
        | exact max_le (by norm_num) (min_le_left _ _)

/-- C7 (amended): if the initial speed lies in [20, 80] — the constructor does
not clamp it — then the reported speed stays in [20, 80] after any finite
sequence of `move` calls, whatever the time deltas and random draws. -/
theorem gps_run_speed_invariant (g : GPSState) (steps : List (ℝ × GPSSimulator.MoveRand))
    (h1 : 20 ≤ g.speed_kmh) (h2 : g.speed_kmh ≤ 80) :
    20 ≤ (GPSSimulator.run g steps).speed_kmh ∧
      (GPSSimulator.run g steps).speed_kmh ≤ 80 := by
  induction steps generalizing g with
  | nil => exact ⟨h1, h2⟩
  | cons p t ih =>
      have hstep := gps_move_speed_mem g p.1 p.2 h1 h2
      simpa [GPSSimulator.run] using ih (GPSSimulator.move g p.1 p.2) hstep.1 hstep.2

/-- C7 witness. -/
theorem gps_run_speed_invariant_witness :
    20 ≤ (GPSSimulator.init 0 0 50 10 5).speed_kmh ∧
      (GPSSimulator.init 0 0 50 10 5).speed_kmh ≤ 80 ∧
      (20 ≤ (GPSSimulator.run (GPSSimulator.init 0 0 50 10 5) [(1, cMoveRand)]).speed_kmh ∧
        (GPSSimulator.run (GPSSimulator.init 0 0 50 10 5) [(1, cMoveRand)]).speed_kmh ≤ 80) :=
  ⟨by norm_num [GPSSimulator.init], by norm_num [GPSSimulator.init],
    gps_run_speed_invariant _ _ (by norm_num [GPSSimulator.init])
      (by norm_num [GPSSimulator.init])⟩

/-- C7 counterexample: a simulator constructed with speed 100 km/h keeps
reporting 100 km/h after a `move` whose draws do not trigger the speed
perturbation, so the reported speed is not always within [20, 80]. -/
theorem gps_speed_not_clamped :
    ¬ (20 ≤ (GPSSimulator.move cGpsFast 1 cMoveRand).speed_kmh ∧
        (GPSSimulator.move cGpsFast 1 cMoveRand).speed_kmh ≤ 80) := by
  have hspeed : (GPSSimulator.move cGpsFast 1 cMoveRand).speed_kmh = 100 := by
    norm_num [cGpsFast, cMoveRand, GPSSimulator.move, GPSSimulator.update_speed,
      GPSSimulator.update_heading, GPSSimulator.init,
      apply_ite (f := GPSState.speed_kmh)]
  rw [hspeed]
  norm_num

/-- C9: when the current waypoint index is at (or past) the final waypoint,
`move` returns the state completely unchanged, and `get_current_position`
delegates to the embedded GPS simulator's reading without touching the state. -/
theorem route_final_waypoint (s : RouteState) (dt : ℝ) (n : GPSSimulator.NoiseRand)
    (h : RouteSimulator.atEnd s) :
    RouteSimulator.move s dt = some s ∧
      RouteSimulator.get_current_position s n =
        (GPSSimulator.get_current_position s.gps_simulator n, s) := by
  constructor
  · unfold RouteSimulator.move
    rw [if_pos h]
  · unfold RouteSimulator.get_current_position
    rw [if_pos h]

/-- C9 witness. -/
theorem route_final_waypoint_witness :
    RouteSimulator.atEnd cRouteEnd ∧
      (RouteSimulator.move cRouteEnd 1 = some cRouteEnd ∧
        RouteSimulator.get_current_position cRouteEnd ⟨0, 0⟩ =
          (GPSSimulator.get_current_position cRouteEnd.gps_simulator ⟨0, 0⟩, cRouteEnd)) :=
  ⟨by norm_num [RouteSimulator.atEnd, cRouteEnd],
    route_final_waypoint cRouteEnd 1 ⟨0, 0⟩ (by norm_num [RouteSimulator.atEnd, cRouteEnd])⟩

/-- C10: on a route whose current and next waypoints coincide, a `move` call on
the non-final segment divides by the zero segment length and raises
`ZeroDivisionError` (modelled as `none`) instead of advancing — for every
coordinate pair, speed, time delta and constructor draw. -/
theorem route_move_zero_segment (p : LatLng) (rest : List LatLng)
    (spd heading0 accuracy0 dt : ℝ) :
    (RouteSimulator.init (p :: p :: rest) spd heading0 accuracy0).bind
      (fun s => RouteSimulator.move s dt) = none := by
  simp only [RouteSimulator.init, Option.some_bind]
  unfold RouteSimulator.move
  rw [if_neg (by simp [RouteSimulator.atEnd]), if_pos]
  simp [RouteSimulator.segment_distance, RouteSimulator.calculate_distance,
    calculate_distance_self]

theorem route_move_progress_lt {s : RouteState} {dt : ℝ} {s' : RouteState}
    (hmove : RouteSimulator.move s dt = some s') (hp : s.progress < 1) :
    s'.progress < 1 := by
  simp only [RouteSimulator.move] at hmove
  by_cases h1 : RouteSimulator.atEnd s
  · rw [if_pos h1] at hmove
    cases hmove
    exact hp
  · rw [if_neg h1] at hmove
    by_cases h2 : RouteSimulator.segment_distance s * 1000 = 0
    · rw [if_pos h2] at hmove
      cases hmove
    · rw [if_neg h2] at hmove
      by_cases h3 : (1.0 : ℝ) ≤ s.progress + RouteSimulator.progress_increment s dt
      · rw [if_pos h3] at hmove
        cases hmove
        norm_num
      · rw [if_neg h3] at hmove
        cases hmove
        push_neg at h3
        exact lt_of_lt_of_le h3 (by norm_num)

theorem route_runMoves_progress_lt (dts : List ℝ) :
    ∀ (o : Option RouteState) (s' : RouteState),
      (∀ u, o = some u → u.progress < 1) →
        RouteSimulator.runMoves o dts = some s' → s'.progress < 1 := by
  induction dts with
  | nil =>
      intro o s' ho hrun
      exact ho s' hrun
  | cons dt t ih =>
      intro o s' ho hrun
      refine ih (o.bind (fun st => RouteSimulator.move st dt)) s' ?_ hrun
      intro u hu
      rcases Option.bind_eq_some.mp hu with ⟨v, hv, hmv⟩
      exact route_move_progress_lt hmv (ho v hv)

/-- C8: along any run of `move` calls from a freshly constructed simulator the
observable progress stays strictly below 1.0, and a single successful `move`
on a non-final segment advances `current_waypoint_index` (by one, resetting
progress to 0) exactly when the incremented progress reaches 1.0, leaving the
index unchanged and the progress at its incremented value otherwise. -/
theorem route_progress_behaviour (wps : List LatLng) (spd heading0 accuracy0 : ℝ)
    (dts : List ℝ) (s' : RouteState) (s : RouteState) (dt : ℝ) (s'' : RouteState)
    (hrun : RouteSimulator.runMoves (RouteSimulator.init wps spd heading0 accuracy0) dts
      = some s')
    (hmid : ¬ RouteSimulator.atEnd s)
    (hmove : RouteSimulator.move s dt = some s'') :
    s'.progress < 1 ∧
      ((1 ≤ s.progress + RouteSimulator.progress_increment s dt →
          s''.current_waypoint_index = s.current_waypoint_index + 1 ∧ s''.progress = 0) ∧
        (s.progress + RouteSimulator.progress_increment s dt < 1 →
          s''.current_waypoint_index = s.current_waypoint_index ∧
            s''.progress = s.progress + RouteSimulator.progress_increment s dt)) := by
  constructor
  · refine route_runMoves_progress_lt dts _ s' ?_ hrun
    intro u hu
    unfold RouteSimulator.init at hu
    match wps, hu with
    | w0 :: ws, hu =>
        cases hu
        norm_num
  · simp only [RouteSimulator.move] at hmove
    rw [if_neg hmid] at hmove
    by_cases hz : RouteSimulator.segment_distance s * 1000 = 0
    · rw [if_pos hz] at hmove
      cases hmove
    · rw [if_neg hz] at hmove
      by_cases hge : (1.0 : ℝ) ≤ s.progress + RouteSimulator.progress_increment s dt
      · rw [if_pos hge] at hmove
        cases hmove
        constructor
        · intro _
          exact ⟨rfl, by norm_num⟩
        · intro hlt
          exfalso
          have h10 : (1.0 : ℝ) = 1 := by norm_num
          rw [h10] at hge
          linarith
      · rw [if_neg hge] at hmove
        cases hmove
        constructor
        · intro hle
          exfalso
          push_neg at hge
          have h10 : (1.0 : ℝ) = 1 := by norm_num
          rw [h10] at hge
          linarith
        · intro _
          exact ⟨rfl, rfl⟩

/-- Concrete bounds on the haversine distance between (0°, 0°) and (1°, 0°):
it is about 111 km, so in particular at least 1 km and at most 30000 km. -/
theorem calc_dist_0010_bounds :
    1 ≤ calculate_distance 0 0 1 0 ∧ calculate_distance 0 0 1 0 ≤ 30000 := by
  have hpi := Real.pi_gt_d2
  have hpi' := Real.pi_lt_d2
  simp only [calculate_distance, radians, atan2, sub_zero, sub_self, zero_mul, one_mul,
    zero_div, Real.sin_zero, Real.cos_zero, mul_zero, mul_one, add_zero, zero_add]
  set s := Real.sin (Real.pi / 180 / 2) with hs
  have hx_pos : (0 : ℝ) < Real.pi / 180 / 2 := by positivity
  have hx_le : Real.pi / 180 / 2 ≤ 1 := by nlinarith
  have hs_pos : 0 < s := by
    rw [hs]
    exact Real.sin_pos_of_pos_of_lt_pi hx_pos (by nlinarith)
  have hs_le : s ≤ 1 := by
    rw [hs]
    exact Real.sin_le_one _
  have hss : Real.sqrt (s * s) = s := Real.sqrt_mul_self hs_pos.le
  rw [hss]
  set z : ℂ := ⟨Real.sqrt (1 - s * s), s⟩ with hz
  have hs2 : s * s ≤ 1 := by nlinarith
  have habs : Complex.abs z = 1 := by
    rw [Complex.abs_apply, Complex.normSq_mk]
    rw [Real.mul_self_sqrt (by nlinarith)]
    rw [show 1 - s * s + s * s = 1 by ring, Real.sqrt_one]
  have hre : 0 ≤ z.re := Real.sqrt_nonneg _
  have him : z.im = s := rfl
  have hsinarg : Real.sin z.arg = s := by
    rw [Complex.sin_arg, habs, him, div_one]
  have harg0 : 0 ≤ z.arg := Complex.arg_nonneg_iff.mpr (by rw [him]; exact hs_pos.le)
  have hargne : z.arg ≠ 0 := by
    intro h
    rw [h, Real.sin_zero] at hsinarg
    exact hs_pos.ne hsinarg
  have harg_pos : 0 < z.arg := lt_of_le_of_ne harg0 (Ne.symm hargne)
  have harg_le : z.arg ≤ Real.pi / 2 :=
    (abs_le.mp (Complex.abs_arg_le_pi_div_two_iff.mpr hre)).2
  have hs_lt_arg : s < z.arg := by
    have h := Real.sin_lt harg_pos
    rw [hsinarg] at h
    exact h
  have hcube := Real.sin_gt_sub_cube hx_pos hx_le
  rw [← hs] at hcube
  have hxu : Real.pi / 180 / 2 < 0.00875 := by nlinarith
  have hxl : (0.0087 : ℝ) < Real.pi / 180 / 2 := by nlinarith
  have hx3 : (Real.pi / 180 / 2) ^ 3 < (0.00875 : ℝ) ^ 3 :=
    pow_lt_pow_left₀ hxu hx_pos.le (by norm_num)
  have hs_lb : 0.008 < s := by nlinarith
  constructor
  · nlinarith
  · nlinarith

theorem cRouteStart_segment_pos : 0 < RouteSimulator.segment_distance cRouteStart * 1000 := by
  have h := calc_dist_0010_bounds.1
  have hseg : RouteSimulator.segment_distance cRouteStart = calculate_distance 0 0 1 0 := by
    simp [RouteSimulator.segment_distance, RouteSimulator.calculate_distance, cRouteStart,
      cRouteWps]
  rw [hseg]
  nlinarith

theorem cRouteStart_not_atEnd : ¬ RouteSimulator.atEnd cRouteStart := by
  simp [RouteSimulator.atEnd, cRouteStart, cRouteWps]

theorem cRouteStart_move_zero_dt : RouteSimulator.move cRouteStart 0 = some cRouteStart := by
  simp only [RouteSimulator.move]
  rw [if_neg cRouteStart_not_atEnd, if_neg (ne_of_gt cRouteStart_segment_pos)]
  have hinc : RouteSimulator.progress_increment cRouteStart 0 = 0 := by
    simp [RouteSimulator.progress_increment]
  rw [hinc]
  rw [if_neg (by norm_num [cRouteStart] : ¬ ((1.0 : ℝ) ≤ cRouteStart.progress + 0))]
  simp [cRouteStart]

theorem pyRound_zero (n : ℕ) : pyRound 0 n = 0 := by
  rw [pyRound, zero_mul]
  have h : halfEven 0 = 0 := by
    rw [halfEven, if_pos]
    · exact Int.floor_zero
    · rw [Int.fract_zero]
      norm_num
  rw [h]
  simp

/-- C2 (amended): the route-analysis endpoint never returns a report.  An
empty waypoint list is answered with the 400 error response (No waypoints
provided); every non-empty waypoint list is answered with a 500 error, because
the nested `get_speed_recommendations()` call succeeds and returns a bare
Flask Response, which line 230 then subscripts, raising TypeError.  In
particular the average-reduction division is never reached, so no division by
zero occurs. -/
theorem analyze_route_safety_never_ok (wps : List Waypoint) (db : List Hazard) (r : ℝ) :
    analyze_route_safety wps db r =
      match wps with
      | [] => .error "No waypoints provided"
      | _ :: _ => .error "TypeError: Response object is not subscriptable" := by
  cases wps <;> rfl

/-- C2 counterexample: `analyze_route_safety` on the empty waypoint list
returns the 400 error response, not a safe report. -/
theorem analyze_route_safety_empty_error :
    analyze_route_safety [] [] 1 = .error "No waypoints provided" := rfl

theorem detailLoop_eq_filter_map (lat lng r : ℝ) (l : List Hazard) :
    detailLoop lat lng r l =
      (l.filter (fun h =>
        decide (calculate_distance lat lng h.latitude h.longitude ≤ r))).map
        (mkDetail lat lng) := by
  induction l with
  | nil => rfl
  | cons h t ih =>
      by_cases hd : calculate_distance lat lng h.latitude h.longitude ≤ r
      · simp [detailLoop, hd, ih]
      · simp [detailLoop, hd, ih]

/-- C6 (amended): the per-waypoint `hazards` list contains exactly the queried
(bounding-box) hazards whose distance to the waypoint is within the search
radius, in the order the query returned them — the code does not sort them by
distance. -/
theorem recommendation_hazards_characterization (db : List Hazard) (r : ℝ) (i : ℕ)
    (w : Waypoint) :
    (recommendationFor db r i w).hazards =
      ((bboxQuery w.lat w.lng (r / 111.0) db).filter (fun h =>
        decide (calculate_distance w.lat w.lng h.latitude h.longitude ≤ r))).map
        (mkDetail w.lat w.lng) := by
  simp only [recommendationFor]
  exact detailLoop_eq_filter_map w.lat w.lng r _

theorem halfEven_ge_floor (y : ℝ) : ⌊y⌋ ≤ halfEven y := by
  unfold halfEven
  split_ifs <;> omega

theorem pyRound_pos {y : ℝ} (n : ℕ) (hy : 1 ≤ y) : 0 < pyRound y n := by
  rw [pyRound]
  have hpow : (0 : ℝ) < 10 ^ n := by positivity
  have h1 : (10 : ℝ) ^ n ≤ y * 10 ^ n := by nlinarith
  have h2 : (((10 : ℤ) ^ n : ℤ) : ℝ) ≤ y * 10 ^ n := by push_cast; linarith
  have h3 : ((10 : ℤ) ^ n) ≤ ⌊y * 10 ^ n⌋ := Int.le_floor.mpr h2
  have h4 : ((10 : ℤ) ^ n) ≤ halfEven (y * 10 ^ n) :=
    le_trans h3 (halfEven_ge_floor _)
  have h5 : (0 : ℝ) < (halfEven (y * 10 ^ n) : ℝ) := by
    have : ((10 : ℤ) ^ n : ℝ) ≤ (halfEven (y * 10 ^ n) : ℝ) := by exact_mod_cast h4
    have hp : (0 : ℝ) < ((10 : ℤ) ^ n : ℝ) := by positivity
    linarith
  exact div_pos h5 hpow

/-- C6 counterexample: with the repository listing the far hazard (≈ 111 km)
before the near one (distance 0), both inside the bounding box and the search
radius, the reported `hazards` list keeps the query order, so its distances
[≈ 111, 0] are not in ascending order. -/
theorem recommendation_hazards_not_sorted :
    ¬ List.Sorted (· ≤ ·)
      (((recommendationFor [cHazFar, cHazNear] 30000 0 ⟨0, 0, some 50⟩).hazards).map
        (·.distance_km)) := by
  have hb := calc_dist_0010_bounds
  have hbb : bboxQuery (0 : ℝ) (0 : ℝ) (30000 / 111.0) [cHazFar, cHazNear]
      = [cHazFar, cHazNear] := by
    simp only [bboxQuery, cHazFar, cHazNear]
    rw [if_pos (by norm_num), if_pos (by norm_num)]
  have hdl : detailLoop (0 : ℝ) (0 : ℝ) 30000 [cHazFar, cHazNear]
      = [mkDetail 0 0 cHazFar, mkDetail 0 0 cHazNear] := by
    simp only [detailLoop, cHazFar, cHazNear]
    rw [if_pos (by simpa using hb.2), if_pos (by simp [calculate_distance_self])]
  have hlist :
      ((recommendationFor [cHazFar, cHazNear] 30000 0 ⟨0, 0, some 50⟩).hazards).map
          (·.distance_km)
        = [pyRound (calculate_distance 0 0 cHazFar.latitude cHazFar.longitude) 2,
            pyRound (calculate_distance 0 0 cHazNear.latitude cHazNear.longitude) 2] := by
    simp only [recommendationFor, hbb, hdl, List.map_cons, List.map_nil, mkDetail]
  rw [hlist]
  intro hsort
  have hle := (List.sorted_cons.mp hsort).1 _ (List.mem_singleton.mpr rfl)
  rw [show cHazNear.latitude = 0 from rfl, show cHazNear.longitude = 0 from rfl,
    calculate_distance_self, pyRound_zero] at hle
  have hpos : 0 < pyRound (calculate_distance 0 0 cHazFar.latitude cHazFar.longitude) 2 := by
    rw [show cHazFar.latitude = 1 from rfl, show cHazFar.longitude = 0 from rfl]
    exact pyRound_pos 2 hb.1
  linarith

/-- C8 witness. -/
theorem route_progress_behaviour_witness :
    RouteSimulator.runMoves (RouteSimulator.init cRouteWps 50 0 5) [] = some cRouteStart ∧
      ¬ RouteSimulator.atEnd cRouteStart ∧
      RouteSimulator.move cRouteStart 0 = some cRouteStart ∧
      (cRouteStart.progress < 1 ∧
        ((1 ≤ cRouteStart.progress + RouteSimulator.progress_increment cRouteStart 0 →
            cRouteStart.current_waypoint_index = cRouteStart.current_waypoint_index + 1 ∧
              cRouteStart.progress = 0) ∧
          (cRouteStart.progress + RouteSimulator.progress_increment cRouteStart 0 < 1 →
            cRouteStart.current_waypoint_index = cRouteStart.current_waypoint_index ∧
              cRouteStart.progress =
                cRouteStart.progress + RouteSimulator.progress_increment cRouteStart 0))) := by
  have h1 : RouteSimulator.runMoves (RouteSimulator.init cRouteWps 50 0 5) []
      = some cRouteStart := rfl
  exact ⟨h1, cRouteStart_not_atEnd, cRouteStart_move_zero_dt,
    route_progress_behaviour cRouteWps 50 0 5 [] cRouteStart cRouteStart 0 cRouteStart
      h1 cRouteStart_not_atEnd cRouteStart_move_zero_dt⟩

end

end RoadHazard
